import Mathlib

/-
Verification development for the mikro-multi-tenant repository.

The core of the repository is `TenantManager` (src/services/TenantManager.ts):
a registry that lazily provisions one PostgreSQL database per tenant,
caches live MikroORM handles, and closes them on shutdown; in front of it
sit `tenantMiddleware` (tenant resolution from header/host) and the
organization route that derives a tenant identifier from an organization
name.  The definitions below are a shallow embedding of that code:
JavaScript strings become Lean `String`s (split/trim/lowercase re-implemented
on character lists so they compute in the kernel), the outcome of each
awaited database operation is supplied by an environment record, and the observable
behaviour (SQL issued, log lines, cache mutations, raised errors) is
returned explicitly.
-/

/-! ## String primitives (JS `split`, `trim`, `toLowerCase`, `\s`) -/

/-- JS `String.prototype.split(sep)` for a single-character separator,
on the character list: `"a;;b".split(';') = ["a","","b"]`, `"".split(';') = [""]`. -/
def splitOnChar (sep : Char) : List Char → List (List Char)
  | [] => [[]]
  | c :: cs =>
      let rest := splitOnChar sep cs
      if c = sep then [] :: rest
      else
        match rest with
        | r :: rs => (c :: r) :: rs
        | [] => [[c]]

/-- The character class of the JS regex `\s` (WhiteSpace plus LineTerminator):
space, tab, LF, VT, FF, CR, NBSP, Ogham space, the U+2000–U+200A range,
line/paragraph separators, narrow NBSP, medium mathematical space,
ideographic space, and BOM. -/
def jsWhitespace (c : Char) : Bool :=
  c = ' ' || c = '\t' || c = '\n' || c = '\x0b' || c = '\x0c' || c = '\r' ||
  c = ' ' || c = ' ' || (' ' ≤ c && c ≤ ' ') ||
  c = ' ' || c = ' ' || c = ' ' || c = ' ' ||
  c = '　' || c = '﻿'

/-- JS `String.prototype.trim`: strip `jsWhitespace` from both ends. -/
def jsTrim (l : List Char) : List Char :=
  ((l.dropWhile jsWhitespace).reverse.dropWhile jsWhitespace).reverse

/-- Splitting a schema script into statements, as both bootstrap sites do
(TenantManager.ts lines 73–75 and index.ts lines 36–38):
`schema.split(';').map(s => s.trim()).filter(s => s.length > 0)`. -/
def splitStatements (script : String) : List String :=
  ((splitOnChar ';' script.data).map (fun l => String.mk (jsTrim l))).filter
    (fun s => s.length > 0)

/-- Model of the expression `req.hostname.split(".")[0]` in
tenantMiddleware.ts: the first dot-delimited label of the host name;
`""` for an empty host. -/
def firstHostLabel (host : String) : String :=
  String.mk ((splitOnChar '.' host.data).headD [])

/-! ## Tenant identifier derivation (organizationRoutes.ts POST `/`)

The route computes `name.toLowerCase().replace(/\s+/g, '-')`: lowercase the
name, then replace each maximal run of `\s` characters by a single hyphen. -/

/-- The global regex replace `/\s+/g → '-'`: the Boolean argument records
whether we are inside a whitespace run (so the run yields one `'-'`). -/
def replaceWsRuns : List Char → Bool → List Char
  | [], _ => []
  | c :: cs, inRun =>
      if jsWhitespace c then
        if inRun then replaceWsRuns cs true
        else '-' :: replaceWsRuns cs true
      else c :: replaceWsRuns cs false

/-- Tenant id derivation, organizationRoutes.ts line 66:
`name.toLowerCase().replace(/\s+/g, "-")`.  Here `Char.toLower` models the
ASCII fragment of JS `toLowerCase`. -/
def deriveTenantId (name : String) : String :=
  String.mk (replaceWsRuns (name.data.map Char.toLower) false)

/-! ## Data model: registry state, observable events, outcome environment -/

/-- Observable effects of the registry: SQL issued through the base
connection (queries carry their bound parameters separately), tenant ORM
initialisation, migration runs, statements executed on the tenant
connection, and console output. -/
inductive DbEvent where
  | queryBase (sql : String) (params : List String)
  | execBase (sql : String)
  | initTenantOrm (dbName : String)
  | migrateUp
  | execTenant (stmt : String)
  | logInfo (msg : String)
  | logError (msg : String)
  | logWarn (msg : String)
  deriving Repr, DecidableEq

/-- Fields of the `TenantManager` class: `baseOrm` (nullable) and
`tenantOrmInstances` (a map tenantId → ORM handle, embedded as an
association list).  `nextHandle` numbers freshly initialised ORM instances
so distinct instances are distinguishable. -/
structure ManagerState where
  baseOrm : Option Nat
  tenantOrmInstances : List (String × Nat)
  nextHandle : Nat
  deriving Repr, DecidableEq

/-- Model of `this.tenantOrmInstances.get(tenantId)` (and `.has`). -/
def lookupTenant (st : ManagerState) (t : String) : Option Nat :=
  (st.tenantOrmInstances.find? (fun p => p.1 = t)).map (fun p => p.2)

/-- Model of `Map.set`: overwrite the entry for the key if present, else append. -/
def insertAssoc : List (String × Nat) → String → Nat → List (String × Nat)
  | [], t, h => [(t, h)]
  | (k, v) :: rest, t, h =>
      if k = t then (k, h) :: rest else (k, v) :: insertAssoc rest t h

/-- Model of `this.tenantOrmInstances.set(tenantId, orm)`. -/
def setTenant (st : ManagerState) (t : String) (h : Nat) : ManagerState :=
  { st with tenantOrmInstances := insertAssoc st.tenantOrmInstances t h }

/-- Outcome of each awaited operation inside `getTenantORM`, supplied
externally: `Except.error msg` means the corresponding promise rejected
with an error whose `.message` is `msg`.  `existsCheckResult.ok b` means
the `SELECT 1 FROM pg_database` query returned a row iff `b`;
`schemaRead` is the `fs.readFileSync` of `schema.sql`; `stmtResult i` is
the outcome of executing the i-th bootstrap statement. -/
structure TenantEnv where
  baseInitResult : Except String Unit
  existsCheckResult : Except String Bool
  createResult : Except String Unit
  initResult : Except String Unit
  migrateResult : Except String Unit
  schemaRead : Except String String
  stmtResult : Nat → Except String Unit

/-! ## TenantManager.getBaseORM (lines 15–20) -/

/-- Model of `getBaseORM`: return the cached base ORM, initialising it on
first call; an init failure propagates to the caller. -/
def getBaseORM (env : TenantEnv) (st : ManagerState) :
    ManagerState × Except String Nat :=
  match st.baseOrm with
  | some h => (st, Except.ok h)
  | none =>
      match env.baseInitResult with
      | Except.error e => (st, Except.error e)
      | Except.ok _ =>
          let h := st.nextHandle
          ({ st with baseOrm := some h, nextHandle := h + 1 }, Except.ok h)

/-! ## TenantManager.getTenantORM (lines 22–97) -/

/-- Lines 28–42: inside one `try`, query
`SELECT 1 FROM pg_database WHERE datname = $1` with `tenant_<t>` as the
bound parameter, and if no row comes back execute the interpolated command
`` `CREATE DATABASE tenant_${tenantId}` ``; any error from either
operation is caught and logged (`console.error`), never rethrown. -/
def checkCreateDatabase (env : TenantEnv) (t : String) : List DbEvent :=
  let queryEv := DbEvent.queryBase "SELECT 1 FROM pg_database WHERE datname = $1"
      ["tenant_" ++ t]
  match env.existsCheckResult with
  | Except.error e =>
      [queryEv, DbEvent.logError ("Error checking/creating tenant database: " ++ e)]
  | Except.ok found =>
      if found then [queryEv]
      else
        match env.createResult with
        | Except.error e =>
            [queryEv, DbEvent.execBase ("CREATE DATABASE tenant_" ++ t),
             DbEvent.logError ("Error checking/creating tenant database: " ++ e)]
        | Except.ok _ =>
            [queryEv, DbEvent.execBase ("CREATE DATABASE tenant_" ++ t),
             DbEvent.logInfo ("Created new database for tenant: tenant_" ++ t)]

/-- Lines 79–85 (and index.ts lines 42–48): execute each statement in its
own `try`; a failure is logged as a warning (`console.warn`) and the loop
continues with the next statement. -/
def execStatementsFrom (stmtResult : Nat → Except String Unit) :
    Nat → List String → List DbEvent
  | _, [] => []
  | i, s :: rest =>
      (match stmtResult i with
       | Except.ok _ => [DbEvent.execTenant s]
       | Except.error e =>
           [DbEvent.execTenant s,
            DbEvent.logWarn ("Warning executing statement for tenant: " ++ e)]) ++
      execStatementsFrom stmtResult (i + 1) rest

/-- The bootstrap fallback body: split the raw script into statements and
execute each independently. -/
def runBootstrap (env : TenantEnv) (script : String) : List DbEvent :=
  execStatementsFrom env.stmtResult 0 (splitStatements script)

/-- Lines 57–91: run `migrator.up()`; on failure, log, read `schema.sql`
and run the bootstrap fallback; a failure reading the file is caught and
logged (`console.error`).  No branch rethrows. -/
def provisionSchema (env : TenantEnv) (t : String) : List DbEvent :=
  match env.migrateResult with
  | Except.ok _ =>
      [DbEvent.migrateUp, DbEvent.logInfo ("Migrations applied for tenant " ++ t)]
  | Except.error e =>
      [DbEvent.migrateUp,
       DbEvent.logInfo ("Migrations not applied for tenant " ++ t ++ ": " ++ e),
       DbEvent.logInfo ("Creating schema manually for tenant " ++ t ++ "..."),
       DbEvent.logInfo "Creating tenant schema manually..."] ++
      (match env.schemaRead with
       | Except.error e2 =>
           [DbEvent.logError ("Error creating schema for tenant " ++ t ++ ": " ++ e2)]
       | Except.ok script =>
           runBootstrap env script ++
           [DbEvent.logInfo ("Schema created successfully for tenant " ++ t)])

/-- Result of one `getTenantORM` call: the manager state afterwards, the
events it produced, and either the returned ORM handle or the raised
error. -/
structure TenantCallResult where
  state : ManagerState
  events : List DbEvent
  result : Except String Nat
  deriving Repr

/-- Model of `getTenantORM(tenantId)` (lines 22–97).  Cached: return immediately.
Otherwise: obtain the base ORM (propagating its failure), run the
swallowed check/create step, `MikroORM.init` the tenant ORM (line 55 — an
uncaught failure propagates before anything is cached), provision the
schema (never throws), `set` the handle into the cache and return
`this.tenantOrmInstances.get(tenantId)!`, which is the handle just set. -/
def getTenantORM (env : TenantEnv) (st : ManagerState) (t : String) :
    TenantCallResult :=
  match lookupTenant st t with
  | some h => ⟨st, [], Except.ok h⟩
  | none =>
      match getBaseORM env st with
      | (st1, Except.error e) => ⟨st1, [], Except.error e⟩
      | (st1, Except.ok _) =>
          let evs1 := checkCreateDatabase env t
          match env.initResult with
          | Except.error e =>
              ⟨st1, evs1 ++ [DbEvent.initTenantOrm ("tenant_" ++ t)], Except.error e⟩
          | Except.ok _ =>
              let h := st1.nextHandle
              let st2 : ManagerState := { st1 with nextHandle := h + 1 }
              let evs2 := evs1 ++ [DbEvent.initTenantOrm ("tenant_" ++ t)] ++
                  provisionSchema env t
              ⟨setTenant st2 t h, evs2, Except.ok h⟩

/-! ## tenantMiddleware (tenantMiddleware.ts lines 125–149) -/

/-- Model of the resolver expression
`req.headers["x-tenant-id"] as string || req.hostname.split(".")[0]`:
JS `||` falls through on the falsy values `undefined` (absent header) and
`""` (empty header value). -/
def resolveTenant (header : Option String) (host : String) : String :=
  match header with
  | some h => if h = "" then firstHostLabel host else h
  | none => firstHostLabel host

/-- The three ways the middleware can answer: a 400 without touching the
registry, a 500 when `getTenantORM` throws, or attaching
`(tenantId, tenantORM)` to the request and calling `next()`. -/
inductive MwResponse where
  | clientError (status : Nat) (message : String)
  | serverError (status : Nat) (message : String)
  | proceed (tenantId : String) (handle : Nat)
  deriving Repr, DecidableEq

/-- Model of `tenantMiddleware`: resolve the tenant id; if it is falsy
answer 400 with message `Tenant identification required`; otherwise call
`getTenantORM`, answering 500 with message `Error initializing tenant
context` if it throws and proceeding with the handle otherwise. -/
def tenantMiddleware (env : TenantEnv) (st : ManagerState)
    (header : Option String) (host : String) : ManagerState × MwResponse :=
  let tenantId := resolveTenant header host
  if tenantId = "" then
    (st, MwResponse.clientError 400 "Tenant identification required")
  else
    let r := getTenantORM env st tenantId
    match r.result with
    | Except.ok h => (r.state, MwResponse.proceed tenantId h)
    | Except.error _ =>
        (r.state, MwResponse.serverError 500 "Error initializing tenant context")

/-! ## TenantManager.closeConnections (lines 108–116) -/

/-- Per-handle outcome of `orm.close()`. -/
structure CloseEnv where
  closeResult : Nat → Except String Unit

/-- The `for (const [_, orm] of this.tenantOrmInstances.entries())` loop:
each iteration awaits each `orm.close()` with no surrounding `try`, so the
first rejection aborts the loop.  Returns the handles whose close was
attempted, and the overall outcome. -/
def closeHandles (env : CloseEnv) : List Nat → List Nat × Except String Unit
  | [] => ([], Except.ok ())
  | h :: hs =>
      match env.closeResult h with
      | Except.error e => ([h], Except.error e)
      | Except.ok _ =>
          let (att, r) := closeHandles env hs
          (h :: att, r)

/-- Model of `closeConnections()`: await the base close when the base ORM
is set, then run the tenant loop; there is no `try/catch`, so any
rejection propagates immediately. -/
def closeConnections (env : CloseEnv) (st : ManagerState) :
    List Nat × Except String Unit :=
  match st.baseOrm with
  | some b =>
      match env.closeResult b with
      | Except.error e => ([b], Except.error e)
      | Except.ok _ =>
          let (att, r) := closeHandles env (st.tenantOrmInstances.map (fun p => p.2))
          (b :: att, r)
  | none => closeHandles env (st.tenantOrmInstances.map (fun p => p.2))

/-! ## Interleaving model of two concurrent `getTenantORM` calls

Each `await` in `getTenantORM` is a yield point of the Node event loop.
The program counter below names the synchronous segments between awaits,
for the run where every database operation succeeds and the database does
not exist yet; the global state carries the shared manager fields plus the
physical-database flag and a count of `CREATE DATABASE` attempts. -/

/-- Shared state seen by both concurrent calls: the cache and base ORM of
the manager, whether the physical tenant database exists, a fresh-handle
counter, and how many `CREATE DATABASE` commands have been issued. -/
structure RaceGlobal where
  cache : Option Nat
  baseOrm : Option Nat
  dbExists : Bool
  nextHandle : Nat
  createAttempts : Nat
  deriving Repr, DecidableEq

/-- Program counter of one `getTenantORM(t)` call, one constructor per
synchronous segment: the cache check (line 23), `getBaseORM` (line 25),
the existence query (lines 30–36), the create command (line 37),
`MikroORM.init` (line 55), `migrator.up()` (line 60), and the
`set`-then-`return` segment (lines 93–96), which is synchronous and hence
atomic.  `done h` means the call returned handle `h`. -/
inductive RacePc where
  | checkCache
  | getBase
  | queryExistence
  | createDb
  | initOrm
  | migrate (h : Nat)
  | setCache (h : Nat)
  | done (h : Nat)
  deriving Repr, DecidableEq

/-- Execute one synchronous segment of one call against the shared state.
An attempted `CREATE DATABASE` is counted even when the database already
exists (in the source that attempt rejects and is swallowed by the
surrounding catch). -/
def raceStep (g : RaceGlobal) (p : RacePc) : RaceGlobal × RacePc :=
  match p with
  | RacePc.checkCache =>
      match g.cache with
      | some h => (g, RacePc.done h)
      | none => (g, RacePc.getBase)
  | RacePc.getBase =>
      match g.baseOrm with
      | some _ => (g, RacePc.queryExistence)
      | none =>
          ({ g with baseOrm := some g.nextHandle, nextHandle := g.nextHandle + 1 },
           RacePc.queryExistence)
  | RacePc.queryExistence =>
      if g.dbExists then (g, RacePc.initOrm) else (g, RacePc.createDb)
  | RacePc.createDb =>
      ({ g with dbExists := true, createAttempts := g.createAttempts + 1 },
       RacePc.initOrm)
  | RacePc.initOrm =>
      ({ g with nextHandle := g.nextHandle + 1 }, RacePc.migrate g.nextHandle)
  | RacePc.migrate h => (g, RacePc.setCache h)
  | RacePc.setCache h => ({ g with cache := some h }, RacePc.done h)
  | RacePc.done h => (g, RacePc.done h)

/-- Run a schedule over two concurrent calls A and B: `true` steps A,
`false` steps B. -/
def runRace : List Bool → RaceGlobal × RacePc × RacePc → RaceGlobal × RacePc × RacePc
  | [], s => s
  | b :: bs, (g, pa, pb) =>
      if b then
        let (g2, pa2) := raceStep g pa
        runRace bs (g2, pa2, pb)
      else
        let (g2, pb2) := raceStep g pb
        runRace bs (g2, pa, pb2)

/-! ## Well-formedness of the issued CREATE DATABASE text -/

/-- Characters legal in an unquoted PostgreSQL identifier (letters,
digits, underscore, dollar). -/
def isPgIdentChar (c : Char) : Bool :=
  c.isAlpha || c.isDigit || c = '_' || c = '$'

/-- A command text is a well-formed single `CREATE DATABASE` statement for
database name `dbName` iff it is exactly `CREATE DATABASE ` followed by
`dbName` written as one unquoted identifier. -/
def wellFormedSingleCreate (dbName cmd : String) : Bool :=
  cmd = "CREATE DATABASE " ++ dbName &&
  dbName ≠ "" &&
  dbName.data.all isPgIdentChar

/-! ## Concrete fixtures used by closed theorems and witnesses -/

/-- An environment in which every database operation succeeds and the
tenant database does not exist yet. -/
def envOk : TenantEnv :=
  { baseInitResult := Except.ok ()
    existsCheckResult := Except.ok false
    createResult := Except.ok ()
    initResult := Except.ok ()
    migrateResult := Except.ok ()
    schemaRead := Except.ok "CREATE TABLE IF NOT EXISTS crop (id UUID)"
    stmtResult := fun _ => Except.ok () }

/-- A fresh manager: no base ORM, empty cache. -/
def st0 : ManagerState := ⟨none, [], 0⟩

/-- A manager whose base ORM is already initialised (handle 0). -/
def stBase : ManagerState := ⟨some 0, [], 1⟩

/-- Shutdown fixture: base handle 0 and two cached tenants with handles 1
and 2. -/
def stClose : ManagerState := ⟨some 0, [("t1", 1), ("t2", 2)], 3⟩

/-- A close environment in which closing handle 1 (the first tenant)
rejects and every other close succeeds. -/
def closeEnvFail : CloseEnv :=
  ⟨fun h => if h = 1 then Except.error "connection stuck" else Except.ok ()⟩

/-- Initial shared state of the race model: empty cache, no base ORM,
physical database absent. -/
def raceInit : RaceGlobal := ⟨none, none, false, 0, 0⟩

/-- The strictly alternating schedule A, B, A, B, …: both calls pass the
cache check, the existence query, and the create command before either
caches. -/
def raceSchedule : List Bool :=
  [true, false, true, false, true, false, true, false,
   true, false, true, false, true, false]

/-! ## Helper lemmas -/

/-- Extract the statement text from a tenant-connection execution event. -/
def execTenantStmt : DbEvent → Option String
  | DbEvent.execTenant s => some s
  | _ => none

/-- The bootstrap loop attempts every statement of its input list, in
order, whatever the per-statement outcomes are. -/
theorem execStatementsFrom_filterMap (f : Nat → Except String Unit) :
    ∀ (l : List String) (i : Nat),
      (execStatementsFrom f i l).filterMap execTenantStmt = l := by
  intro l
  induction l with
  | nil => intro i; rfl
  | cons s rest ih =>
      intro i
      cases hf : f i <;>
        simp [execStatementsFrom, hf, List.filterMap_append, execTenantStmt, ih]

/-- The check/create step never executes statements on the tenant
connection. -/
theorem checkCreateDatabase_no_stmts (env : TenantEnv) (t : String) :
    (checkCreateDatabase env t).filterMap execTenantStmt = [] := by
  cases hc : env.existsCheckResult with
  | error e => simp [checkCreateDatabase, hc, execTenantStmt]
  | ok found =>
      cases found <;> cases hcr : env.createResult <;>
        simp [checkCreateDatabase, hc, hcr, execTenantStmt]

/-- Looking up a key immediately after setting it yields the new handle. -/
theorem lookupTenant_setTenant (st : ManagerState) (t : String) (h : Nat) :
    lookupTenant (setTenant st t h) t = some h := by
  show (List.find? _ (insertAssoc st.tenantOrmInstances t h)).map _ = some h
  induction st.tenantOrmInstances with
  | nil => simp [insertAssoc, List.find?]
  | cons p rest ih =>
      by_cases hk : p.1 = t
      · simp [insertAssoc, hk, List.find?]
      · simp only [insertAssoc]
        rw [if_neg hk]
        simpa [List.find?, hk] using ih

/-- Every character of the regex replace output is the hyphen or a
non-whitespace character of the input. -/
theorem replaceWsRuns_mem :
    ∀ (l : List Char) (b : Bool) (c : Char), c ∈ replaceWsRuns l b →
      c = '-' ∨ (c ∈ l ∧ jsWhitespace c = false) := by
  intro l
  induction l with
  | nil => intro b c hc; cases hc
  | cons c0 cs ih =>
      intro b c hc
      by_cases hws : jsWhitespace c0
      · cases b with
        | true =>
            simp only [replaceWsRuns, if_pos hws] at hc
            rcases ih true c hc with h | ⟨hmem, hb⟩
            · exact Or.inl h
            · exact Or.inr ⟨List.mem_cons_of_mem _ hmem, hb⟩
        | false =>
            simp only [replaceWsRuns, if_pos hws] at hc
            rcases List.mem_cons.mp hc with h | h
            · exact Or.inl h
            · rcases ih true c h with h2 | ⟨hmem, hb⟩
              · exact Or.inl h2
              · exact Or.inr ⟨List.mem_cons_of_mem _ hmem, hb⟩
      · simp only [replaceWsRuns, if_neg hws] at hc
        rcases List.mem_cons.mp hc with h | h
        · subst h
          exact Or.inr ⟨List.mem_cons_self _ _, by simpa using hws⟩
        · rcases ih false c h with h2 | ⟨hmem, hb⟩
          · exact Or.inl h2
          · exact Or.inr ⟨List.mem_cons_of_mem _ hmem, hb⟩

/-- On a whitespace-free input the regex replace is the identity. -/
theorem replaceWsRuns_id :
    ∀ (l : List Char), (∀ c ∈ l, jsWhitespace c = false) →
      replaceWsRuns l false = l := by
  intro l
  induction l with
  | nil => intro _; rfl
  | cons c0 cs ih =>
      intro hl
      have h0 : jsWhitespace c0 = false := hl c0 (List.mem_cons_self _ _)
      simp only [replaceWsRuns, h0, Bool.false_eq_true, if_false]
      rw [ih (fun c hc => hl c (List.mem_cons_of_mem _ hc))]

/-- Computation of `getTenantORM` on the uncached path when the base ORM
is already initialised: the call runs the swallowed check/create step and
then branches on the tenant `MikroORM.init` outcome. -/
theorem getTenantORM_eq_of_uncached (env : TenantEnv) (st : ManagerState)
    (t : String) (b : Nat)
    (hnc : lookupTenant st t = none) (hb : st.baseOrm = some b) :
    getTenantORM env st t =
      match env.initResult with
      | Except.error e =>
          ⟨st, checkCreateDatabase env t ++ [DbEvent.initTenantOrm ("tenant_" ++ t)],
           Except.error e⟩
      | Except.ok _ =>
          ⟨setTenant { st with nextHandle := st.nextHandle + 1 } t st.nextHandle,
           checkCreateDatabase env t ++ [DbEvent.initTenantOrm ("tenant_" ++ t)] ++
             provisionSchema env t,
           Except.ok st.nextHandle⟩ := by
  have hgb : getBaseORM env st = (st, Except.ok b) := by
    unfold getBaseORM
    rw [hb]
  unfold getTenantORM
  rw [hnc, hgb]

/-! ## Claim theorems -/

/-- Claim C1: the claim asserts that two concurrent `getTenantORM(t)`
calls for an uncached `t` trigger exactly one `CREATE DATABASE` attempt
and one provisioning run, both callers receiving the same cached
instance.  The code has no per-tenant lock: under the strictly
alternating schedule both calls pass the cache check and the existence
query before either caches, so two `CREATE DATABASE` attempts are issued,
two distinct ORM instances (handles 1 and 2) are initialised, the callers
return different instances, and the first instance returned is no longer
the cached one. -/
theorem getTenantORM_race_two_creates :
    (runRace raceSchedule (raceInit, RacePc.checkCache, RacePc.checkCache)).1.createAttempts = 2
  ∧ (runRace raceSchedule (raceInit, RacePc.checkCache, RacePc.checkCache)).2.1 = RacePc.done 1
  ∧ (runRace raceSchedule (raceInit, RacePc.checkCache, RacePc.checkCache)).2.2 = RacePc.done 2
  ∧ (runRace raceSchedule (raceInit, RacePc.checkCache, RacePc.checkCache)).1.cache = some 2
  ∧ (runRace raceSchedule (raceInit, RacePc.checkCache, RacePc.checkCache)).2.1
      ≠ (runRace raceSchedule (raceInit, RacePc.checkCache, RacePc.checkCache)).2.2 := by
  decide

/-- Claim C2, counterexample: the claim says the derived tenant identifier
is the name lower-cased with every non-alphanumeric character replaced,
so that it contains only lowercase alphanumerics and the replacement
character.  The code only replaces whitespace runs: the organization name
`Green & Fields` derives to `green-&-fields`, which contains `&` — a
character that is neither alphanumeric nor the replacement hyphen. -/
theorem deriveTenantId_counterexample :
    deriveTenantId "Green & Fields" = "green-&-fields"
  ∧ '&' ∈ (deriveTenantId "Green & Fields").data
  ∧ ('&'.isAlphanum || '&' = '-') = false := by
  decide

/-- Claim C2, amended: the derived tenant identifier is the name
lower-cased with every maximal run of whitespace characters replaced by a
single hyphen; so no whitespace remains, every character is the hyphen or
a lower-cased character of the name, and a whitespace-free name is merely
lower-cased. -/
theorem deriveTenantId_amended (name : String) :
    (∀ c ∈ (deriveTenantId name).data, jsWhitespace c = false)
  ∧ (∀ c ∈ (deriveTenantId name).data, c = '-' ∨ c ∈ name.data.map Char.toLower)
  ∧ ((∀ c ∈ name.data.map Char.toLower, jsWhitespace c = false) →
      deriveTenantId name = String.mk (name.data.map Char.toLower)) := by
  refine ⟨?_, ?_, ?_⟩
  · intro c hc
    rcases replaceWsRuns_mem (name.data.map Char.toLower) false c hc with h | ⟨_, hb⟩
    · subst h; decide
    · exact hb
  · intro c hc
    rcases replaceWsRuns_mem (name.data.map Char.toLower) false c hc with h | ⟨hm, _⟩
    · exact Or.inl h
    · exact Or.inr hm
  · intro hws
    show String.mk (replaceWsRuns (name.data.map Char.toLower) false) = _
    rw [replaceWsRuns_id _ hws]

/-- Witness for the amended C2 at a concrete whitespace-free name. -/
theorem deriveTenantId_amended_witness :
    deriveTenantId "GreenValley" = String.mk ("GreenValley".data.map Char.toLower) :=
  (deriveTenantId_amended "GreenValley").2.2 (by decide)

/-- Claim C5: the claim says `closeConnections` attempts the base close
plus all N tenant closes even when individual closes fail, logging and
continuing.  The code has no `try/catch` around any close: with base
handle 0 and cached tenant handles 1 and 2, when closing handle 1 rejects
the sweep stops — only handles 0 and 1 are attempted and handle 2 is
never closed, the rejection propagating out of `closeConnections`. -/
theorem closeConnections_abort :
    closeConnections closeEnvFail stClose = ([0, 1], Except.error "connection stuck")
  ∧ stClose.tenantOrmInstances.map (fun p => p.2) = [1, 2]
  ∧ ¬ (2 : Nat) ∈ (closeConnections closeEnvFail stClose).1 := by
  refine ⟨rfl, rfl, ?_⟩
  decide

/-- Claim C9: the bootstrap fallback executes exactly the statements
obtained by splitting the raw script on `;`, trimming each piece and
dropping the empty ones; every statement is attempted, in order, for
every assignment of per-statement outcomes — a failing statement never
prevents the attempts that follow and never aborts the run. -/
theorem runBootstrap_executes_all (env : TenantEnv) (script : String) :
    (runBootstrap env script).filterMap execTenantStmt = splitStatements script := by
  unfold runBootstrap
  exact execStatementsFrom_filterMap env.stmtResult (splitStatements script) 0

/-- Claim C3, counterexample: the claim says a request with no
`X-Tenant-Id` header and host `localhost` is rejected with the 400
`Tenant identification required` response and never reaches the Registry.
In the code the host fallback yields the non-empty candidate `localhost`,
so the middleware calls `getTenantORM("localhost")` and proceeds: from a
fresh manager with every database operation succeeding, the response is
`proceed "localhost" 1` — not the 400 — and a `localhost` tenant is now
cached in the Registry. -/
theorem tenantMiddleware_localhost_counterexample :
    (tenantMiddleware envOk st0 none "localhost").2 = MwResponse.proceed "localhost" 1
  ∧ (tenantMiddleware envOk st0 none "localhost").2
      ≠ MwResponse.clientError 400 "Tenant identification required"
  ∧ lookupTenant (tenantMiddleware envOk st0 none "localhost").1 "localhost" = some 1 := by
  refine ⟨rfl, ?_, rfl⟩
  decide

/-- Claim C3, amended: with no tenant header the resolver yields the
first dot-delimited label of the host, which for host `localhost` is
`localhost` itself; the request therefore reaches the Registry, and the
400 `Tenant identification required` response is never produced for this
request, whatever the manager state and database outcomes. -/
theorem tenantMiddleware_localhost_amended :
    resolveTenant none "localhost" = "localhost"
  ∧ ∀ (env : TenantEnv) (st : ManagerState),
      (tenantMiddleware env st none "localhost").2
        ≠ MwResponse.clientError 400 "Tenant identification required" := by
  refine ⟨rfl, ?_⟩
  intro env st
  unfold tenantMiddleware
  rw [show resolveTenant none "localhost" = "localhost" from rfl]
  rw [if_neg (by decide : ¬ ("localhost" = ""))]
  cases hr : (getTenantORM env st "localhost").result <;> simp [hr]

/-- Claim C4, counterexample: the claim says resolution returns the value
of the tenant header whenever one is present, and fails exactly when the
resolved candidate is empty.  An empty-but-present header is falsy in JS,
so the code falls through to the host label instead: with header `""` and
host `acme.example.com` the code resolves `acme` (not the header value
`""`), and instead of a `MissingTenantError` the request proceeds. -/
theorem resolveTenant_empty_header_counterexample :
    resolveTenant (some "") "acme.example.com" = "acme"
  ∧ "acme" ≠ ""
  ∧ (tenantMiddleware envOk st0 (some "") "acme.example.com").2
      = MwResponse.proceed "acme" 1 := by
  refine ⟨rfl, by decide, rfl⟩

/-- Claim C4, amended: resolution returns the header value when the
header is present and non-empty; when the header is absent or empty it
returns the first dot-delimited label of the host; and the middleware
answers the 400 `Tenant identification required` exactly when the
candidate so resolved is the empty string. -/
theorem resolveTenant_amended (header : Option String) (host : String)
    (env : TenantEnv) (st : ManagerState) :
    (∀ h, header = some h → h ≠ "" → resolveTenant header host = h)
  ∧ (header = none → resolveTenant header host = firstHostLabel host)
  ∧ (header = some "" → resolveTenant header host = firstHostLabel host)
  ∧ ((tenantMiddleware env st header host).2
       = MwResponse.clientError 400 "Tenant identification required"
     ↔ resolveTenant header host = "") := by
  refine ⟨?_, ?_, ?_, ?_⟩
  · intro h hh hne
    subst hh
    simp [resolveTenant, hne]
  · intro hh
    subst hh
    rfl
  · intro hh
    subst hh
    rfl
  · unfold tenantMiddleware
    by_cases hc : resolveTenant header host = ""
    · rw [hc]
      simp
    · rw [if_neg hc]
      cases hr : (getTenantORM env st (resolveTenant header host)).result <;>
        simp [hr, hc]

/-- Witness for the amended C4: a non-empty header wins over the host. -/
theorem resolveTenant_amended_witness :
    resolveTenant (some "greenfield") "acme.example.com" = "greenfield" :=
  (resolveTenant_amended (some "greenfield") "acme.example.com" envOk st0).1
    "greenfield" rfl (by decide)

/-- Environment in which tenant migration rejects (everything else as in
`envOk`). -/
def envMigFail : TenantEnv := { envOk with migrateResult := Except.error "mig boom" }

/-- Environment in which the tenant `MikroORM.init` rejects. -/
def envInitFail : TenantEnv :=
  { envOk with initResult := Except.error "connect ECONNREFUSED" }

/-- Environment in which the database-existence check rejects. -/
def envChkFail : TenantEnv :=
  { envOk with existsCheckResult := Except.error "permission denied" }

/-- Environment in which the existence check reports the database absent
and the `CREATE DATABASE` command then rejects. -/
def envCreateFail : TenantEnv :=
  { envOk with createResult := Except.error "permission denied" }

/-- Claim C6: for an uncached tenant whose handle opens successfully, a
migration failure makes the provisioner fall back to executing the
bootstrap script, and neither the migration failure nor any bootstrap
failure reaches the caller: for every schema-read and per-statement
outcome, `getTenantORM` still caches a handle for the tenant and returns
it, and when the script is readable every one of its statements is
attempted. -/
theorem getTenantORM_migration_fallback (env : TenantEnv) (st : ManagerState)
    (t : String) (b : Nat) (e : String)
    (hnc : lookupTenant st t = none) (hb : st.baseOrm = some b)
    (hinit : env.initResult = Except.ok ())
    (hmig : env.migrateResult = Except.error e) :
    (getTenantORM env st t).result = Except.ok st.nextHandle
  ∧ lookupTenant (getTenantORM env st t).state t = some st.nextHandle
  ∧ (∀ script, env.schemaRead = Except.ok script →
      (getTenantORM env st t).events.filterMap execTenantStmt
        = splitStatements script) := by
  have hcomp := getTenantORM_eq_of_uncached env st t b hnc hb
  rw [hinit] at hcomp
  refine ⟨?_, ?_, ?_⟩
  · rw [hcomp]
  · rw [hcomp]
    exact lookupTenant_setTenant _ _ _
  · intro script hscript
    rw [hcomp]
    show (checkCreateDatabase env t ++ [DbEvent.initTenantOrm ("tenant_" ++ t)] ++
        provisionSchema env t).filterMap execTenantStmt = _
    simp [provisionSchema, hmig, hscript, List.filterMap_append,
      checkCreateDatabase_no_stmts, execTenantStmt, runBootstrap,
      execStatementsFrom_filterMap]

/-- Witness for C6: with migration rejecting and every bootstrap outcome
as in `envOk`, the uncached tenant still gets a cached handle back and
the script statements are attempted. -/
theorem getTenantORM_migration_fallback_witness :
    (getTenantORM envMigFail stBase "acme").result = Except.ok stBase.nextHandle
  ∧ lookupTenant (getTenantORM envMigFail stBase "acme").state "acme"
      = some stBase.nextHandle
  ∧ (getTenantORM envMigFail stBase "acme").events.filterMap execTenantStmt
      = splitStatements "CREATE TABLE IF NOT EXISTS crop (id UUID)" :=
  ⟨(getTenantORM_migration_fallback envMigFail stBase "acme" 0 "mig boom"
      rfl rfl rfl rfl).1,
   (getTenantORM_migration_fallback envMigFail stBase "acme" 0 "mig boom"
      rfl rfl rfl rfl).2.1,
   (getTenantORM_migration_fallback envMigFail stBase "acme" 0 "mig boom"
      rfl rfl rfl rfl).2.2 "CREATE TABLE IF NOT EXISTS crop (id UUID)" rfl⟩

/-- Claim C7: for an uncached tenant, if opening the tenant handle fails
the error is raised to the caller, the tenant cache is left unchanged (no
entry for the tenant is inserted, so a later call provisions from
scratch), and the middleware surfaces the failure as the 500
`Error initializing tenant context` response. -/
theorem getTenantORM_connect_failure (env : TenantEnv) (st : ManagerState)
    (t : String) (b : Nat) (e : String)
    (hnc : lookupTenant st t = none) (hb : st.baseOrm = some b)
    (hinit : env.initResult = Except.error e) :
    (getTenantORM env st t).result = Except.error e
  ∧ (getTenantORM env st t).state.tenantOrmInstances = st.tenantOrmInstances
  ∧ lookupTenant (getTenantORM env st t).state t = none
  ∧ (t ≠ "" → ∀ header host, resolveTenant header host = t →
      (tenantMiddleware env st header host).2
        = MwResponse.serverError 500 "Error initializing tenant context") := by
  have hcomp := getTenantORM_eq_of_uncached env st t b hnc hb
  rw [hinit] at hcomp
  refine ⟨?_, ?_, ?_, ?_⟩
  · rw [hcomp]
  · rw [hcomp]
  · rw [hcomp]
    exact hnc
  · intro ht header host hres
    unfold tenantMiddleware
    rw [hres, if_neg ht, hcomp]

/-- Witness for C7: a failed connect yields the raised error, an
unchanged cache, and the 500 response. -/
theorem getTenantORM_connect_failure_witness :
    (getTenantORM envInitFail stBase "acme").result
      = Except.error "connect ECONNREFUSED"
  ∧ lookupTenant (getTenantORM envInitFail stBase "acme").state "acme" = none
  ∧ (tenantMiddleware envInitFail stBase (some "acme") "farm.example.com").2
      = MwResponse.serverError 500 "Error initializing tenant context" :=
  ⟨(getTenantORM_connect_failure envInitFail stBase "acme" 0 "connect ECONNREFUSED"
      rfl rfl rfl).1,
   (getTenantORM_connect_failure envInitFail stBase "acme" 0 "connect ECONNREFUSED"
      rfl rfl rfl).2.2.1,
   (getTenantORM_connect_failure envInitFail stBase "acme" 0 "connect ECONNREFUSED"
      rfl rfl rfl).2.2.2 (by decide) (some "acme") "farm.example.com" rfl⟩

/-- Claim C8: for an uncached tenant, a failure of either the
database-existence check or the `CREATE DATABASE` command is logged and
swallowed — provisioning continues to the connect step — and the call
fails only if the subsequent connect itself fails: under either trigger
the error log is emitted, the tenant ORM init is still attempted, the
final result mirrors the connect outcome alone, and in the failing-create
case the create command was really attempted first. -/
theorem getTenantORM_checkCreate_swallowed (env : TenantEnv) (st : ManagerState)
    (t : String) (b : Nat) (e : String)
    (hnc : lookupTenant st t = none) (hb : st.baseOrm = some b)
    (hchk : env.existsCheckResult = Except.error e ∨
      (env.existsCheckResult = Except.ok false ∧ env.createResult = Except.error e)) :
    DbEvent.logError ("Error checking/creating tenant database: " ++ e)
      ∈ (getTenantORM env st t).events
  ∧ DbEvent.initTenantOrm ("tenant_" ++ t) ∈ (getTenantORM env st t).events
  ∧ (env.initResult = Except.ok () →
      (getTenantORM env st t).result = Except.ok st.nextHandle)
  ∧ (∀ e2, env.initResult = Except.error e2 →
      (getTenantORM env st t).result = Except.error e2)
  ∧ (env.existsCheckResult = Except.ok false ∧ env.createResult = Except.error e →
      DbEvent.execBase ("CREATE DATABASE tenant_" ++ t)
        ∈ (getTenantORM env st t).events) := by
  have hcomp := getTenantORM_eq_of_uncached env st t b hnc hb
  have hlog : DbEvent.logError ("Error checking/creating tenant database: " ++ e)
      ∈ checkCreateDatabase env t := by
    rcases hchk with hchk | ⟨hfound, hcr⟩
    · simp [checkCreateDatabase, hchk]
    · simp [checkCreateDatabase, hfound, hcr]
  refine ⟨?_, ?_, ?_, ?_, ?_⟩
  · cases hi : env.initResult with
    | ok u =>
        rw [hi] at hcomp
        rw [hcomp]
        exact List.mem_append_left _ (List.mem_append_left _ hlog)
    | error e2 =>
        rw [hi] at hcomp
        rw [hcomp]
        exact List.mem_append_left _ hlog
  · cases hi : env.initResult with
    | ok u =>
        rw [hi] at hcomp
        rw [hcomp]
        exact List.mem_append_left _
          (List.mem_append_right _ (List.mem_singleton.mpr rfl))
    | error e2 =>
        rw [hi] at hcomp
        rw [hcomp]
        exact List.mem_append_right _ (List.mem_singleton.mpr rfl)
  · intro hi
    rw [hi] at hcomp
    rw [hcomp]
  · intro e2 hi
    rw [hi] at hcomp
    rw [hcomp]
  · intro hcr2
    have hexec : DbEvent.execBase ("CREATE DATABASE tenant_" ++ t)
        ∈ checkCreateDatabase env t := by
      simp [checkCreateDatabase, hcr2.1, hcr2.2]
    cases hi : env.initResult with
    | ok u =>
        rw [hi] at hcomp
        rw [hcomp]
        exact List.mem_append_left _ (List.mem_append_left _ hexec)
    | error e2 =>
        rw [hi] at hcomp
        rw [hcomp]
        exact List.mem_append_left _ hexec

/-- Witness for C8, one application per trigger: with the existence check
rejecting, the error is logged and the call still returns a handle; with
the check reporting the database absent and the create command rejecting,
the create was attempted, the error is logged, and the call still returns
a handle. -/
theorem getTenantORM_checkCreate_swallowed_witness :
    (DbEvent.logError ("Error checking/creating tenant database: " ++ "permission denied")
       ∈ (getTenantORM envChkFail stBase "acme").events
     ∧ (getTenantORM envChkFail stBase "acme").result = Except.ok stBase.nextHandle)
  ∧ (DbEvent.logError ("Error checking/creating tenant database: " ++ "permission denied")
       ∈ (getTenantORM envCreateFail stBase "acme").events
     ∧ DbEvent.execBase ("CREATE DATABASE tenant_" ++ "acme")
         ∈ (getTenantORM envCreateFail stBase "acme").events
     ∧ (getTenantORM envCreateFail stBase "acme").result = Except.ok stBase.nextHandle) :=
  ⟨⟨(getTenantORM_checkCreate_swallowed envChkFail stBase "acme" 0 "permission denied"
       rfl rfl (Or.inl rfl)).1,
    (getTenantORM_checkCreate_swallowed envChkFail stBase "acme" 0 "permission denied"
       rfl rfl (Or.inl rfl)).2.2.1 rfl⟩,
   ⟨(getTenantORM_checkCreate_swallowed envCreateFail stBase "acme" 0 "permission denied"
       rfl rfl (Or.inr ⟨rfl, rfl⟩)).1,
    (getTenantORM_checkCreate_swallowed envCreateFail stBase "acme" 0 "permission denied"
       rfl rfl (Or.inr ⟨rfl, rfl⟩)).2.2.2.2 ⟨rfl, rfl⟩,
    (getTenantORM_checkCreate_swallowed envCreateFail stBase "acme" 0 "permission denied"
       rfl rfl (Or.inr ⟨rfl, rfl⟩)).2.2.1 rfl⟩⟩

/-- Claim C10: for an uncached tenant whose database-existence check
reports the database absent, the existence check is issued with the fixed
query text and `tenant_<t>` passed as a bound parameter, while the create
command is the literal concatenation `CREATE DATABASE tenant_` ++ t with
the supplied identifier interpolated unquoted and unescaped into the SQL
text; consequently for an identifier containing spaces and a semicolon
the issued text is not a well-formed single CREATE DATABASE statement for
that database name. -/
theorem createDatabase_interpolation (env : TenantEnv) (st : ManagerState)
    (t : String) (b : Nat)
    (hnc : lookupTenant st t = none) (hb : st.baseOrm = some b)
    (hfound : env.existsCheckResult = Except.ok false) :
    DbEvent.queryBase "SELECT 1 FROM pg_database WHERE datname = $1" ["tenant_" ++ t]
      ∈ (getTenantORM env st t).events
  ∧ DbEvent.execBase ("CREATE DATABASE tenant_" ++ t) ∈ (getTenantORM env st t).events
  ∧ wellFormedSingleCreate ("tenant_" ++ "evil; DROP DATABASE postgres")
      ("CREATE DATABASE tenant_" ++ "evil; DROP DATABASE postgres") = false := by
  have hcomp := getTenantORM_eq_of_uncached env st t b hnc hb
  refine ⟨?_, ?_, by decide⟩
  · cases hcr : env.createResult <;> cases hi : env.initResult <;>
      (rw [hi] at hcomp; rw [hcomp];
       simp [checkCreateDatabase, hfound, hcr, List.mem_append])
  · cases hcr : env.createResult <;> cases hi : env.initResult <;>
      (rw [hi] at hcomp; rw [hcomp];
       simp [checkCreateDatabase, hfound, hcr, List.mem_append])

/-- Witness for C10: the interpolated create command issued for a
concrete uncached tenant. -/
theorem createDatabase_interpolation_witness :
    DbEvent.execBase ("CREATE DATABASE tenant_" ++ "acme")
      ∈ (getTenantORM envOk stBase "acme").events :=
  (createDatabase_interpolation envOk stBase "acme" 0 rfl rfl rfl).2.1
